import Mathlib

/-!
Verification of the orbital-dynamics propagation module (`orbital_dynamics.py`)
of the orbit-tool repository.

The three propagators `two_body_propagator`, `three_body_cr_propagator` and
`three_body_propagator` each compute derived gravitational constants and then
hand a derivative closure (`differential_system`) together with the raw call
parameters to the external Runge-Kutta solver `rk_45`.  We embed, over the
real numbers:

* the three `differential_system` closures, as total functions on `List ℝ`
  (the Python closures are straight-line float arithmetic with no error path;
  a wrong-length state, which would make Python's tuple unpacking raise, is
  mapped to the empty list);
* the pre-integration phase of each propagator: the derived constants it
  computes and the call record it passes, unconditionally, to `rk_45`.

Real-number division by zero is total in Lean (`x / 0 = 0`); it stands in for
the IEEE quiet NaN/Inf the Python code produces at singular separations.
-/

noncomputable section

/-- Euclidean length of a 3-vector given by its components,
written as the source writes it: `sqrt (dx**2 + dy**2 + dz**2)`. -/
def dist3 (dx dy dz : ℝ) : ℝ :=
  Real.sqrt (dx ^ 2 + dy ^ 2 + dz ^ 2)

/-- The `differential_system` closure of `two_body_propagator`
(src/orbital_dynamics.py lines 38-58).  It captures `mu_1 = G * mass_1` and
`mu_2 = G * mass_2` computed by the enclosing propagator. -/
def two_body_differential_system (mu_1 mu_2 : ℝ) (_t : ℝ) (s : List ℝ) : List ℝ :=
  match s with
  | [x_1, y_1, z_1, vx_1, vy_1, vz_1, x_2, y_2, z_2, vx_2, vy_2, vz_2] =>
    let r := Real.sqrt ((x_2 - x_1) ^ 2 + (y_2 - y_1) ^ 2 + (z_2 - z_1) ^ 2)
    [vx_1,
     vy_1,
     vz_1,
     mu_2 * (x_2 - x_1) / r ^ 3,
     mu_2 * (y_2 - y_1) / r ^ 3,
     mu_2 * (z_2 - z_1) / r ^ 3,
     vx_2,
     vy_2,
     vz_2,
     mu_1 * (x_1 - x_2) / r ^ 3,
     mu_1 * (y_1 - y_2) / r ^ 3,
     mu_1 * (z_1 - z_2) / r ^ 3]
  | _ => []

/-- The `differential_system` closure of `three_body_cr_propagator`
(src/orbital_dynamics.py lines 92-108).  It captures `mu_1`, `mu_2`, `pi_1`,
`pi_2`, `omega` and `r_12` computed by the enclosing propagator. -/
def three_body_cr_differential_system (mu_1 mu_2 pi_1 pi_2 omega r_12 : ℝ)
    (_t : ℝ) (s : List ℝ) : List ℝ :=
  match s with
  | [x, y, z, v_x, v_y, v_z] =>
    let r_1 := Real.sqrt ((x + pi_2 * r_12) ^ 2 + y ^ 2 + z ^ 2)
    let r_2 := Real.sqrt ((x - pi_1 * r_12) ^ 2 + y ^ 2 + z ^ 2)
    [v_x,
     v_y,
     v_z,
     2 * omega * v_y + x * omega ^ 2 - (mu_1 / r_1 ^ 3) * (x + pi_2 * r_12)
       - (mu_2 / r_2 ^ 3) * (x - pi_1 * r_12),
     -2 * omega * v_x + y * omega ^ 2 - (mu_1 / r_1 ^ 3) * y - (mu_2 / r_2 ^ 3) * y,
     -(mu_1 / r_1 ^ 3) * z - (mu_2 / r_2 ^ 3) * z]
  | _ => []

/-- The `differential_system` closure of `three_body_propagator`
(src/orbital_dynamics.py lines 139-167).  It captures `mu_1`, `mu_2`, `mu_3`
computed by the enclosing propagator. -/
def three_body_differential_system (mu_1 mu_2 mu_3 : ℝ) (_t : ℝ) (s : List ℝ) : List ℝ :=
  match s with
  | [x_1, y_1, z_1, vx_1, vy_1, vz_1, x_2, y_2, z_2, vx_2, vy_2, vz_2,
     x_3, y_3, z_3, vx_3, vy_3, vz_3] =>
    let r_12 := Real.sqrt ((x_2 - x_1) ^ 2 + (y_2 - y_1) ^ 2 + (z_2 - z_1) ^ 2)
    let r_13 := Real.sqrt ((x_3 - x_1) ^ 2 + (y_3 - y_1) ^ 2 + (z_3 - z_1) ^ 2)
    let r_32 := Real.sqrt ((x_3 - x_2) ^ 2 + (y_3 - y_2) ^ 2 + (z_3 - z_2) ^ 2)
    [vx_1,
     vy_1,
     vz_1,
     mu_2 * (x_2 - x_1) / r_12 ^ 3 + mu_3 * (x_3 - x_1) / r_13 ^ 3,
     mu_2 * (y_2 - y_1) / r_12 ^ 3 + mu_3 * (y_3 - y_1) / r_13 ^ 3,
     mu_2 * (z_2 - z_1) / r_12 ^ 3 + mu_3 * (z_3 - z_1) / r_13 ^ 3,
     vx_2,
     vy_2,
     vz_2,
     mu_1 * (x_1 - x_2) / r_12 ^ 3 + mu_3 * (x_3 - x_2) / r_32 ^ 3,
     mu_1 * (y_1 - y_2) / r_12 ^ 3 + mu_3 * (y_3 - y_2) / r_32 ^ 3,
     mu_1 * (z_1 - z_2) / r_12 ^ 3 + mu_3 * (z_3 - z_2) / r_32 ^ 3,
     vx_3,
     vy_3,
     vz_3,
     mu_1 * (x_1 - x_3) / r_13 ^ 3 + mu_2 * (x_2 - x_3) / r_32 ^ 3,
     mu_1 * (y_1 - y_3) / r_13 ^ 3 + mu_2 * (y_2 - y_3) / r_32 ^ 3,
     mu_1 * (z_1 - z_3) / r_13 ^ 3 + mu_2 * (z_2 - z_3) / r_32 ^ 3]
  | _ => []

/-- The argument record each propagator hands to the external solver
`rk_45(differential_system, initial_conditions, t_init, t_final, step_size,
tolerance, beta)`. -/
structure RKCall where
  system : ℝ → List ℝ → List ℝ
  initial_conditions : List ℝ
  t_init : ℝ
  t_final : ℝ
  step_size : Option ℝ
  tolerance : ℝ
  beta : ℝ

/-- Outcome of a propagator's pre-integration phase: either the call is
rejected before integration starts, or integration begins with an `RKCall`.
The source code contains no rejection path; the `rejected` constructor exists
so that the validation behaviour claimed by the spec can be stated. -/
inductive PropOutcome where
  | rejected (reason : String)
  | integrate (call : RKCall)

/-- `true` iff the propagator rejected the call before integration. -/
def PropOutcome.rejects : PropOutcome → Bool
  | .rejected _ => true
  | .integrate _ => false

/-- Pre-integration phase of `two_body_propagator`
(src/orbital_dynamics.py lines 17-62): computes `mu_1`, `mu_2` and calls
`rk_45` unconditionally; no input validation of any kind is performed. -/
def two_body_propagator (t_init t_final mass_1 mass_2 : ℝ)
    (initial_conditions : List ℝ) (grav_constant : ℝ) (step_size : Option ℝ)
    (tolerance beta : ℝ) : PropOutcome :=
  let mu_1 := grav_constant * mass_1
  let mu_2 := grav_constant * mass_2
  .integrate ⟨two_body_differential_system mu_1 mu_2, initial_conditions,
    t_init, t_final, step_size, tolerance, beta⟩

/-- Pre-integration phase of `three_body_cr_propagator`
(src/orbital_dynamics.py lines 65-112): computes `mu_1`, `mu_2`, `pi_1`,
`pi_2`, `omega` and calls `rk_45` unconditionally; no input validation of any
kind is performed. -/
def three_body_cr_propagator (t_init t_final mass_1 mass_2 r_12 : ℝ)
    (initial_conditions : List ℝ) (grav_constant : ℝ) (step_size : Option ℝ)
    (tolerance beta : ℝ) : PropOutcome :=
  let mu_1 := grav_constant * mass_1
  let mu_2 := grav_constant * mass_2
  let pi_1 := mass_1 / (mass_1 + mass_2)
  let pi_2 := mass_2 / (mass_1 + mass_2)
  let omega := Real.sqrt (grav_constant * (mass_1 + mass_2) / r_12 ^ 3)
  .integrate ⟨three_body_cr_differential_system mu_1 mu_2 pi_1 pi_2 omega r_12,
    initial_conditions, t_init, t_final, step_size, tolerance, beta⟩

/-- Pre-integration phase of `three_body_propagator`
(src/orbital_dynamics.py lines 115-171): computes `mu_1`, `mu_2`, `mu_3` and
calls `rk_45` unconditionally; no input validation of any kind is performed. -/
def three_body_propagator (t_init t_final mass_1 mass_2 mass_3 : ℝ)
    (initial_conditions : List ℝ) (grav_constant : ℝ) (step_size : Option ℝ)
    (tolerance beta : ℝ) : PropOutcome :=
  let mu_1 := grav_constant * mass_1
  let mu_2 := grav_constant * mass_2
  let mu_3 := grav_constant * mass_3
  .integrate ⟨three_body_differential_system mu_1 mu_2 mu_3,
    initial_conditions, t_init, t_final, step_size, tolerance, beta⟩

/-- The restricted three-body acceleration as claim C4 words it: the full
position vector (x, y, z) scaled by `omega ^ 2` as the centrifugal term, the
Coriolis coupling in x and y, minus the gravitational pulls.  This definition
follows the claim, not the source, and is compared against
`three_body_cr_differential_system`. -/
def three_body_cr_claimed_deriv (mu_1 mu_2 pi_1 pi_2 omega r_12 : ℝ)
    (x y z v_x v_y v_z : ℝ) : List ℝ :=
  let r_1 := Real.sqrt ((x + pi_2 * r_12) ^ 2 + y ^ 2 + z ^ 2)
  let r_2 := Real.sqrt ((x - pi_1 * r_12) ^ 2 + y ^ 2 + z ^ 2)
  [v_x,
   v_y,
   v_z,
   x * omega ^ 2 + 2 * omega * v_y - (mu_1 / r_1 ^ 3) * (x + pi_2 * r_12)
     - (mu_2 / r_2 ^ 3) * (x - pi_1 * r_12),
   y * omega ^ 2 - 2 * omega * v_x - (mu_1 / r_1 ^ 3) * y - (mu_2 / r_2 ^ 3) * y,
   z * omega ^ 2 - (mu_1 / r_1 ^ 3) * z - (mu_2 / r_2 ^ 3) * z]

end

/-- A `dist3` value is nonzero as soon as the squared-component sum is
positive; used to discharge separation hypotheses at concrete states. -/
lemma dist3_ne_zero {dx dy dz : ℝ} (h : 0 < dx ^ 2 + dy ^ 2 + dz ^ 2) :
    dist3 dx dy dz ≠ 0 := by
  unfold dist3
  exact Real.sqrt_ne_zero'.mpr h

/-- Claim C3: for every 12-component two-body state with nonzero separation
`r`, the two-body derivative passes the velocities through unchanged and sets
body 1's acceleration to `mu_2 * (pos2 - pos1) / r ^ 3` and body 2's
acceleration to `mu_1 * (pos1 - pos2) / r ^ 3`, where `mu_i =
grav_constant * mass_i`. -/
theorem two_body_deriv_formula (grav_constant mass_1 mass_2 t : ℝ)
    (x_1 y_1 z_1 vx_1 vy_1 vz_1 x_2 y_2 z_2 vx_2 vy_2 vz_2 : ℝ)
    (_h : dist3 (x_2 - x_1) (y_2 - y_1) (z_2 - z_1) ≠ 0) :
    two_body_differential_system (grav_constant * mass_1) (grav_constant * mass_2) t
      [x_1, y_1, z_1, vx_1, vy_1, vz_1, x_2, y_2, z_2, vx_2, vy_2, vz_2] =
    [vx_1, vy_1, vz_1,
     grav_constant * mass_2 * (x_2 - x_1) / dist3 (x_2 - x_1) (y_2 - y_1) (z_2 - z_1) ^ 3,
     grav_constant * mass_2 * (y_2 - y_1) / dist3 (x_2 - x_1) (y_2 - y_1) (z_2 - z_1) ^ 3,
     grav_constant * mass_2 * (z_2 - z_1) / dist3 (x_2 - x_1) (y_2 - y_1) (z_2 - z_1) ^ 3,
     vx_2, vy_2, vz_2,
     grav_constant * mass_1 * (x_1 - x_2) / dist3 (x_2 - x_1) (y_2 - y_1) (z_2 - z_1) ^ 3,
     grav_constant * mass_1 * (y_1 - y_2) / dist3 (x_2 - x_1) (y_2 - y_1) (z_2 - z_1) ^ 3,
     grav_constant * mass_1 * (z_1 - z_2) / dist3 (x_2 - x_1) (y_2 - y_1) (z_2 - z_1) ^ 3] := by
  simp [two_body_differential_system, dist3]

/-- Witness for C3 at a concrete state with separation 2 along x. -/
theorem two_body_deriv_formula_witness :
    dist3 (2 - 0) (0 - 0) (0 - 0) ≠ 0 ∧
    two_body_differential_system (1 * 1) (1 * 1) 0
      [0, 0, 0, 0, 0, 0, 2, 0, 0, 0, 0, 0] =
    [0, 0, 0,
     1 * 1 * (2 - 0) / dist3 (2 - 0) (0 - 0) (0 - 0) ^ 3,
     1 * 1 * (0 - 0) / dist3 (2 - 0) (0 - 0) (0 - 0) ^ 3,
     1 * 1 * (0 - 0) / dist3 (2 - 0) (0 - 0) (0 - 0) ^ 3,
     0, 0, 0,
     1 * 1 * (0 - 2) / dist3 (2 - 0) (0 - 0) (0 - 0) ^ 3,
     1 * 1 * (0 - 0) / dist3 (2 - 0) (0 - 0) (0 - 0) ^ 3,
     1 * 1 * (0 - 0) / dist3 (2 - 0) (0 - 0) (0 - 0) ^ 3] := by
  have h : dist3 (2 - 0) (0 - 0) (0 - 0) ≠ 0 := dist3_ne_zero (by norm_num)
  exact ⟨h, two_body_deriv_formula 1 1 1 0 0 0 0 0 0 0 2 0 0 0 0 0 h⟩

/-- Claim C4, counterexample: at `mu_1 = mu_2 = 1`, `pi_1 = pi_2 = 1/2`,
`omega = 1`, `r_12 = 2` and the state `(x, y, z) = (0, 0, 1)` with zero
velocity, the code's derivative differs from the claim's formula: the claimed
centrifugal term `position * omega ^ 2` contributes `omega ^ 2 * z = 1` to the
z-acceleration, while the code has no centrifugal term in z. -/
theorem three_body_cr_claimed_deriv_cex :
    three_body_cr_differential_system 1 1 (1 / 2) (1 / 2) 1 2 0 [0, 0, 1, 0, 0, 0] ≠
    three_body_cr_claimed_deriv 1 1 (1 / 2) (1 / 2) 1 2 0 0 1 0 0 0 := by
  intro h
  have h5 := congrArg (fun l => l.getD 5 0) h
  simp [three_body_cr_differential_system, three_body_cr_claimed_deriv] at h5
  linarith

/-- Claim C4, amended: for every 6-component state of the restricted
three-body model with both primary distances nonzero, the acceleration equals
the centrifugal term applied to the x and y components only (`x * omega ^ 2`
in x and `y * omega ^ 2` in y, no centrifugal contribution in z), plus the
Coriolis term (`+2 * omega * v_y` in x, `-2 * omega * v_x` in y), minus the
gravitational pulls toward each primary scaled by `mu_i / r_i ^ 3`. -/
theorem three_body_cr_deriv_formula (mu_1 mu_2 pi_1 pi_2 omega r_12 t : ℝ)
    (x y z v_x v_y v_z : ℝ)
    (_h1 : dist3 (x + pi_2 * r_12) y z ≠ 0)
    (_h2 : dist3 (x - pi_1 * r_12) y z ≠ 0) :
    three_body_cr_differential_system mu_1 mu_2 pi_1 pi_2 omega r_12 t
      [x, y, z, v_x, v_y, v_z] =
    [v_x, v_y, v_z,
     x * omega ^ 2 + 2 * omega * v_y
       - (mu_1 / dist3 (x + pi_2 * r_12) y z ^ 3) * (x + pi_2 * r_12)
       - (mu_2 / dist3 (x - pi_1 * r_12) y z ^ 3) * (x - pi_1 * r_12),
     y * omega ^ 2 - 2 * omega * v_x
       - (mu_1 / dist3 (x + pi_2 * r_12) y z ^ 3) * y
       - (mu_2 / dist3 (x - pi_1 * r_12) y z ^ 3) * y,
     -(mu_1 / dist3 (x + pi_2 * r_12) y z ^ 3) * z
       - (mu_2 / dist3 (x - pi_1 * r_12) y z ^ 3) * z] := by
  simp only [three_body_cr_differential_system, dist3, List.cons.injEq]
  and_intros <;> first | rfl | ring

/-- Witness for the amended C4 at the state `(x, y, z) = (0, 0, 1)` with
`pi_1 = pi_2 = 1/2`, `r_12 = 2`. -/
theorem three_body_cr_deriv_formula_witness :
    dist3 (0 + 1 / 2 * 2) 0 1 ≠ 0 ∧ dist3 (0 - 1 / 2 * 2) 0 1 ≠ 0 ∧
    three_body_cr_differential_system 1 1 (1 / 2) (1 / 2) 1 2 0
      [0, 0, 1, 0, 0, 0] =
    [0, 0, 0,
     0 * 1 ^ 2 + 2 * 1 * 0
       - (1 / dist3 (0 + 1 / 2 * 2) 0 1 ^ 3) * (0 + 1 / 2 * 2)
       - (1 / dist3 (0 - 1 / 2 * 2) 0 1 ^ 3) * (0 - 1 / 2 * 2),
     0 * 1 ^ 2 - 2 * 1 * 0
       - (1 / dist3 (0 + 1 / 2 * 2) 0 1 ^ 3) * 0
       - (1 / dist3 (0 - 1 / 2 * 2) 0 1 ^ 3) * 0,
     -(1 / dist3 (0 + 1 / 2 * 2) 0 1 ^ 3) * 1
       - (1 / dist3 (0 - 1 / 2 * 2) 0 1 ^ 3) * 1] := by
  have h1 : dist3 (0 + 1 / 2 * 2) 0 1 ≠ 0 := dist3_ne_zero (by norm_num)
  have h2 : dist3 (0 - 1 / 2 * 2) 0 1 ≠ 0 := dist3_ne_zero (by norm_num)
  exact ⟨h1, h2, three_body_cr_deriv_formula 1 1 (1 / 2) (1 / 2) 1 2 0 0 0 1 0 0 0 h1 h2⟩

/-- Claim C5: for every 18-component general three-body state with all three
pairwise separations nonzero, each body's acceleration equals the vector sum
of the gravitational pulls from the other two bodies,
`mu_j * (pos_j - pos_i) / r_ij ^ 3`, with the same pairwise separation value
`r_ij` used for both ends of each pair. -/
theorem three_body_deriv_formula (grav_constant mass_1 mass_2 mass_3 t : ℝ)
    (x_1 y_1 z_1 vx_1 vy_1 vz_1 x_2 y_2 z_2 vx_2 vy_2 vz_2
     x_3 y_3 z_3 vx_3 vy_3 vz_3 : ℝ)
    (_h12 : dist3 (x_2 - x_1) (y_2 - y_1) (z_2 - z_1) ≠ 0)
    (_h13 : dist3 (x_3 - x_1) (y_3 - y_1) (z_3 - z_1) ≠ 0)
    (_h23 : dist3 (x_3 - x_2) (y_3 - y_2) (z_3 - z_2) ≠ 0) :
    three_body_differential_system
      (grav_constant * mass_1) (grav_constant * mass_2) (grav_constant * mass_3) t
      [x_1, y_1, z_1, vx_1, vy_1, vz_1, x_2, y_2, z_2, vx_2, vy_2, vz_2,
       x_3, y_3, z_3, vx_3, vy_3, vz_3] =
    [vx_1, vy_1, vz_1,
     grav_constant * mass_2 * (x_2 - x_1) / dist3 (x_2 - x_1) (y_2 - y_1) (z_2 - z_1) ^ 3
       + grav_constant * mass_3 * (x_3 - x_1) / dist3 (x_3 - x_1) (y_3 - y_1) (z_3 - z_1) ^ 3,
     grav_constant * mass_2 * (y_2 - y_1) / dist3 (x_2 - x_1) (y_2 - y_1) (z_2 - z_1) ^ 3
       + grav_constant * mass_3 * (y_3 - y_1) / dist3 (x_3 - x_1) (y_3 - y_1) (z_3 - z_1) ^ 3,
     grav_constant * mass_2 * (z_2 - z_1) / dist3 (x_2 - x_1) (y_2 - y_1) (z_2 - z_1) ^ 3
       + grav_constant * mass_3 * (z_3 - z_1) / dist3 (x_3 - x_1) (y_3 - y_1) (z_3 - z_1) ^ 3,
     vx_2, vy_2, vz_2,
     grav_constant * mass_1 * (x_1 - x_2) / dist3 (x_2 - x_1) (y_2 - y_1) (z_2 - z_1) ^ 3
       + grav_constant * mass_3 * (x_3 - x_2) / dist3 (x_3 - x_2) (y_3 - y_2) (z_3 - z_2) ^ 3,
     grav_constant * mass_1 * (y_1 - y_2) / dist3 (x_2 - x_1) (y_2 - y_1) (z_2 - z_1) ^ 3
       + grav_constant * mass_3 * (y_3 - y_2) / dist3 (x_3 - x_2) (y_3 - y_2) (z_3 - z_2) ^ 3,
     grav_constant * mass_1 * (z_1 - z_2) / dist3 (x_2 - x_1) (y_2 - y_1) (z_2 - z_1) ^ 3
       + grav_constant * mass_3 * (z_3 - z_2) / dist3 (x_3 - x_2) (y_3 - y_2) (z_3 - z_2) ^ 3,
     vx_3, vy_3, vz_3,
     grav_constant * mass_1 * (x_1 - x_3) / dist3 (x_3 - x_1) (y_3 - y_1) (z_3 - z_1) ^ 3
       + grav_constant * mass_2 * (x_2 - x_3) / dist3 (x_3 - x_2) (y_3 - y_2) (z_3 - z_2) ^ 3,
     grav_constant * mass_1 * (y_1 - y_3) / dist3 (x_3 - x_1) (y_3 - y_1) (z_3 - z_1) ^ 3
       + grav_constant * mass_2 * (y_2 - y_3) / dist3 (x_3 - x_2) (y_3 - y_2) (z_3 - z_2) ^ 3,
     grav_constant * mass_1 * (z_1 - z_3) / dist3 (x_3 - x_1) (y_3 - y_1) (z_3 - z_1) ^ 3
       + grav_constant * mass_2 * (z_2 - z_3) / dist3 (x_3 - x_2) (y_3 - y_2) (z_3 - z_2) ^ 3] := by
  simp [three_body_differential_system, dist3]

/-- Witness for C5 at bodies placed at the origin, `(2, 0, 0)` and
`(0, 2, 0)` with zero velocities and `grav_constant = mass_i = 1`. -/
theorem three_body_deriv_formula_witness :
    dist3 (2 - 0) (0 - 0) (0 - 0) ≠ 0 ∧
    dist3 (0 - 0) (2 - 0) (0 - 0) ≠ 0 ∧
    dist3 (0 - 2) (2 - 0) (0 - 0) ≠ 0 ∧
    three_body_differential_system (1 * 1) (1 * 1) (1 * 1) 0
      [0, 0, 0, 0, 0, 0, 2, 0, 0, 0, 0, 0, 0, 2, 0, 0, 0, 0] =
    [0, 0, 0,
     1 * 1 * (2 - 0) / dist3 (2 - 0) (0 - 0) (0 - 0) ^ 3
       + 1 * 1 * (0 - 0) / dist3 (0 - 0) (2 - 0) (0 - 0) ^ 3,
     1 * 1 * (0 - 0) / dist3 (2 - 0) (0 - 0) (0 - 0) ^ 3
       + 1 * 1 * (2 - 0) / dist3 (0 - 0) (2 - 0) (0 - 0) ^ 3,
     1 * 1 * (0 - 0) / dist3 (2 - 0) (0 - 0) (0 - 0) ^ 3
       + 1 * 1 * (0 - 0) / dist3 (0 - 0) (2 - 0) (0 - 0) ^ 3,
     0, 0, 0,
     1 * 1 * (0 - 2) / dist3 (2 - 0) (0 - 0) (0 - 0) ^ 3
       + 1 * 1 * (0 - 2) / dist3 (0 - 2) (2 - 0) (0 - 0) ^ 3,
     1 * 1 * (0 - 0) / dist3 (2 - 0) (0 - 0) (0 - 0) ^ 3
       + 1 * 1 * (2 - 0) / dist3 (0 - 2) (2 - 0) (0 - 0) ^ 3,
     1 * 1 * (0 - 0) / dist3 (2 - 0) (0 - 0) (0 - 0) ^ 3
       + 1 * 1 * (0 - 0) / dist3 (0 - 2) (2 - 0) (0 - 0) ^ 3,
     0, 0, 0,
     1 * 1 * (0 - 0) / dist3 (0 - 0) (2 - 0) (0 - 0) ^ 3
       + 1 * 1 * (2 - 0) / dist3 (0 - 2) (2 - 0) (0 - 0) ^ 3,
     1 * 1 * (0 - 2) / dist3 (0 - 0) (2 - 0) (0 - 0) ^ 3
       + 1 * 1 * (0 - 2) / dist3 (0 - 2) (2 - 0) (0 - 0) ^ 3,
     1 * 1 * (0 - 0) / dist3 (0 - 0) (2 - 0) (0 - 0) ^ 3
       + 1 * 1 * (0 - 0) / dist3 (0 - 2) (2 - 0) (0 - 0) ^ 3] := by
  have h12 : dist3 (2 - 0) (0 - 0) (0 - 0) ≠ 0 := dist3_ne_zero (by norm_num)
  have h13 : dist3 (0 - 0) (2 - 0) (0 - 0) ≠ 0 := dist3_ne_zero (by norm_num)
  have h23 : dist3 (0 - 2) (2 - 0) (0 - 0) ≠ 0 := dist3_ne_zero (by norm_num)
  exact ⟨h12, h13, h23,
    three_body_deriv_formula 1 1 1 1 0 0 0 0 0 0 0 2 0 0 0 0 0 0 2 0 0 0 0 h12 h13 h23⟩

/-- Claim C2, counterexample: at states with a zero required separation, all
three derivative functions raise no singularity error: each silently returns
an ordinary vector.  (In the real-valued model the divisions by the zero
separation contribute the junk value `0`; in the IEEE arithmetic of the
source they contribute quiet NaN/Inf, equally silently.) -/
theorem singularity_no_error_cex :
    two_body_differential_system 1 1 0 [0, 0, 0, 1, 2, 3, 0, 0, 0, 4, 5, 6] =
      [1, 2, 3, 0, 0, 0, 4, 5, 6, 0, 0, 0] ∧
    three_body_cr_differential_system 1 1 (1 / 2) (1 / 2) 1 2 0
      [-1, 0, 0, 0, 0, 0] = [0, 0, 0, -3 / 4, 0, 0] ∧
    three_body_differential_system 1 1 1 0
      [0, 0, 0, 0, 0, 0, 0, 0, 0, 0, 0, 0, 2, 0, 0, 0, 0, 0] =
      [0, 0, 0, 1 / 4, 0, 0, 0, 0, 0, 1 / 4, 0, 0, 0, 0, 0, -1 / 2, 0, 0] := by
  have h4 : Real.sqrt 4 = 2 := by
    rw [show (4 : ℝ) = 2 ^ 2 by norm_num]
    exact Real.sqrt_sq (by norm_num)
  refine ⟨by norm_num [two_body_differential_system], ?_, ?_⟩
  · unfold three_body_cr_differential_system
    norm_num [h4]
  · unfold three_body_differential_system
    norm_num [h4]

/-- Claim C2, amended: none of the three derivative functions raises an error
at a zero required separation; each returns a full vector silently, the
singular pair's gravitational contribution being the junk value of the
division by zero (0 in the real-valued model, NaN/Inf in IEEE arithmetic)
while all other terms are unaffected.  Stated for the two-body model at
coinciding positions, the restricted model at primary 1's location, and the
general model with bodies 1 and 2 coinciding. -/
theorem singularity_no_error :
    (∀ mu_1 mu_2 t px py pz v1x v1y v1z v2x v2y v2z : ℝ,
      two_body_differential_system mu_1 mu_2 t
        [px, py, pz, v1x, v1y, v1z, px, py, pz, v2x, v2y, v2z] =
      [v1x, v1y, v1z, 0, 0, 0, v2x, v2y, v2z, 0, 0, 0]) ∧
    (∀ mu_1 mu_2 pi_1 pi_2 omega r_12 t v_x v_y v_z : ℝ,
      three_body_cr_differential_system mu_1 mu_2 pi_1 pi_2 omega r_12 t
        [-(pi_2 * r_12), 0, 0, v_x, v_y, v_z] =
      [v_x, v_y, v_z,
       2 * omega * v_y + -(pi_2 * r_12) * omega ^ 2
         - (mu_2 / dist3 (-(pi_2 * r_12) - pi_1 * r_12) 0 0 ^ 3)
           * (-(pi_2 * r_12) - pi_1 * r_12),
       -2 * omega * v_x, 0]) ∧
    (∀ mu_1 mu_2 mu_3 t px py pz qx qy qz v1x v1y v1z v2x v2y v2z v3x v3y v3z : ℝ,
      three_body_differential_system mu_1 mu_2 mu_3 t
        [px, py, pz, v1x, v1y, v1z, px, py, pz, v2x, v2y, v2z,
         qx, qy, qz, v3x, v3y, v3z] =
      [v1x, v1y, v1z,
       mu_3 * (qx - px) / dist3 (qx - px) (qy - py) (qz - pz) ^ 3,
       mu_3 * (qy - py) / dist3 (qx - px) (qy - py) (qz - pz) ^ 3,
       mu_3 * (qz - pz) / dist3 (qx - px) (qy - py) (qz - pz) ^ 3,
       v2x, v2y, v2z,
       mu_3 * (qx - px) / dist3 (qx - px) (qy - py) (qz - pz) ^ 3,
       mu_3 * (qy - py) / dist3 (qx - px) (qy - py) (qz - pz) ^ 3,
       mu_3 * (qz - pz) / dist3 (qx - px) (qy - py) (qz - pz) ^ 3,
       v3x, v3y, v3z,
       mu_1 * (px - qx) / dist3 (qx - px) (qy - py) (qz - pz) ^ 3
         + mu_2 * (px - qx) / dist3 (qx - px) (qy - py) (qz - pz) ^ 3,
       mu_1 * (py - qy) / dist3 (qx - px) (qy - py) (qz - pz) ^ 3
         + mu_2 * (py - qy) / dist3 (qx - px) (qy - py) (qz - pz) ^ 3,
       mu_1 * (pz - qz) / dist3 (qx - px) (qy - py) (qz - pz) ^ 3
         + mu_2 * (pz - qz) / dist3 (qx - px) (qy - py) (qz - pz) ^ 3]) := by
  refine ⟨?_, ?_, ?_⟩
  · intro mu_1 mu_2 t px py pz v1x v1y v1z v2x v2y v2z
    simp [two_body_differential_system]
  · intro mu_1 mu_2 pi_1 pi_2 omega r_12 t v_x v_y v_z
    simp only [three_body_cr_differential_system, dist3]
    rw [show -(pi_2 * r_12) + pi_2 * r_12 = (0 : ℝ) by ring]
    norm_num
  · intro mu_1 mu_2 mu_3 t px py pz qx qy qz v1x v1y v1z v2x v2y v2z v3x v3y v3z
    simp [three_body_differential_system, dist3]

/-- Claim C6: for each force-model variant, at every time and every state of
the variant's declared dimension (12, 6, 18) with all required separations
nonzero, the derivative function returns a vector whose length equals that
state dimension.  (In the real-valued embedding every component is a real
number, so the finiteness half of the claim is automatic; in IEEE arithmetic
it corresponds to the divisors being nonzero.) -/
theorem deriv_length_eq_dimension :
    (∀ mu_1 mu_2 t x_1 y_1 z_1 vx_1 vy_1 vz_1 x_2 y_2 z_2 vx_2 vy_2 vz_2 : ℝ,
      dist3 (x_2 - x_1) (y_2 - y_1) (z_2 - z_1) ≠ 0 →
      (two_body_differential_system mu_1 mu_2 t
        [x_1, y_1, z_1, vx_1, vy_1, vz_1, x_2, y_2, z_2, vx_2, vy_2, vz_2]).length = 12) ∧
    (∀ mu_1 mu_2 pi_1 pi_2 omega r_12 t x y z v_x v_y v_z : ℝ,
      dist3 (x + pi_2 * r_12) y z ≠ 0 → dist3 (x - pi_1 * r_12) y z ≠ 0 →
      (three_body_cr_differential_system mu_1 mu_2 pi_1 pi_2 omega r_12 t
        [x, y, z, v_x, v_y, v_z]).length = 6) ∧
    (∀ mu_1 mu_2 mu_3 t x_1 y_1 z_1 vx_1 vy_1 vz_1 x_2 y_2 z_2 vx_2 vy_2 vz_2
        x_3 y_3 z_3 vx_3 vy_3 vz_3 : ℝ,
      dist3 (x_2 - x_1) (y_2 - y_1) (z_2 - z_1) ≠ 0 →
      dist3 (x_3 - x_1) (y_3 - y_1) (z_3 - z_1) ≠ 0 →
      dist3 (x_3 - x_2) (y_3 - y_2) (z_3 - z_2) ≠ 0 →
      (three_body_differential_system mu_1 mu_2 mu_3 t
        [x_1, y_1, z_1, vx_1, vy_1, vz_1, x_2, y_2, z_2, vx_2, vy_2, vz_2,
         x_3, y_3, z_3, vx_3, vy_3, vz_3]).length = 18) := by
  refine ⟨?_, ?_, ?_⟩ <;> intros <;> rfl

/-- Witness for C6 at concrete states of each variant with unit separations
along the axes. -/
theorem deriv_length_eq_dimension_witness :
    dist3 (2 - 0) (0 - 0) (0 - 0) ≠ 0 ∧
    dist3 (0 + 1 / 2 * 2) 0 0 ≠ 0 ∧ dist3 (0 - 1 / 2 * 2) 0 0 ≠ 0 ∧
    (two_body_differential_system 1 1 0
      [0, 0, 0, 0, 0, 0, 2, 0, 0, 0, 0, 0]).length = 12 ∧
    (three_body_cr_differential_system 1 1 (1 / 2) (1 / 2) 1 2 0
      [0, 0, 0, 0, 0, 0]).length = 6 ∧
    (three_body_differential_system 1 1 1 0
      [0, 0, 0, 0, 0, 0, 2, 0, 0, 0, 0, 0, 0, 2, 0, 0, 0, 0]).length = 18 := by
  have ha : dist3 (2 - 0) (0 - 0) (0 - 0) ≠ 0 := dist3_ne_zero (by norm_num)
  have hb : dist3 (0 + 1 / 2 * 2) 0 0 ≠ 0 := dist3_ne_zero (by norm_num)
  have hc : dist3 (0 - 1 / 2 * 2) 0 0 ≠ 0 := dist3_ne_zero (by norm_num)
  have hd : dist3 (0 - 0) (2 - 0) (0 - 0) ≠ 0 := dist3_ne_zero (by norm_num)
  have he : dist3 (0 - 2) (2 - 0) (0 - 0) ≠ 0 := dist3_ne_zero (by norm_num)
  refine ⟨ha, hb, hc,
    deriv_length_eq_dimension.1 1 1 0 0 0 0 0 0 0 2 0 0 0 0 0 ha,
    deriv_length_eq_dimension.2.1 1 1 (1 / 2) (1 / 2) 1 2 0 0 0 0 0 0 0 hb hc,
    deriv_length_eq_dimension.2.2 1 1 1 0 0 0 0 0 0 0 2 0 0 0 0 0 0 2 0 0 0 0 ha hd he⟩

/-- Claim C7: at every two-body state with nonzero separation, the derivative
satisfies `mass_1 * accel_1 + mass_2 * accel_2 = 0` componentwise, so the
total linear momentum `mass_1 * vel_1 + mass_2 * vel_2` is a first integral
of the modelled vector field. -/
theorem two_body_momentum_conserved (grav_constant mass_1 mass_2 t : ℝ)
    (x_1 y_1 z_1 vx_1 vy_1 vz_1 x_2 y_2 z_2 vx_2 vy_2 vz_2 : ℝ)
    (h : dist3 (x_2 - x_1) (y_2 - y_1) (z_2 - z_1) ≠ 0) :
    mass_1 * (two_body_differential_system (grav_constant * mass_1) (grav_constant * mass_2) t
        [x_1, y_1, z_1, vx_1, vy_1, vz_1, x_2, y_2, z_2, vx_2, vy_2, vz_2]).getD 3 0
      + mass_2 * (two_body_differential_system (grav_constant * mass_1) (grav_constant * mass_2) t
        [x_1, y_1, z_1, vx_1, vy_1, vz_1, x_2, y_2, z_2, vx_2, vy_2, vz_2]).getD 9 0 = 0 ∧
    mass_1 * (two_body_differential_system (grav_constant * mass_1) (grav_constant * mass_2) t
        [x_1, y_1, z_1, vx_1, vy_1, vz_1, x_2, y_2, z_2, vx_2, vy_2, vz_2]).getD 4 0
      + mass_2 * (two_body_differential_system (grav_constant * mass_1) (grav_constant * mass_2) t
        [x_1, y_1, z_1, vx_1, vy_1, vz_1, x_2, y_2, z_2, vx_2, vy_2, vz_2]).getD 10 0 = 0 ∧
    mass_1 * (two_body_differential_system (grav_constant * mass_1) (grav_constant * mass_2) t
        [x_1, y_1, z_1, vx_1, vy_1, vz_1, x_2, y_2, z_2, vx_2, vy_2, vz_2]).getD 5 0
      + mass_2 * (two_body_differential_system (grav_constant * mass_1) (grav_constant * mass_2) t
        [x_1, y_1, z_1, vx_1, vy_1, vz_1, x_2, y_2, z_2, vx_2, vy_2, vz_2]).getD 11 0 = 0 := by
  have hr : dist3 (x_2 - x_1) (y_2 - y_1) (z_2 - z_1) ^ 3 ≠ 0 := pow_ne_zero 3 h
  rw [dist3] at hr
  simp only [two_body_differential_system, List.getD_cons_succ, List.getD_cons_zero]
  refine ⟨?_, ?_, ?_⟩ <;> field_simp <;> ring

/-- Witness for C7 at a concrete state with separation 2 along x. -/
theorem two_body_momentum_conserved_witness :
    dist3 (2 - 0) (0 - 0) (0 - 0) ≠ 0 ∧
    3 * (two_body_differential_system (1 * 3) (1 * 5) 0
        [0, 0, 0, 0, 0, 0, 2, 0, 0, 0, 0, 0]).getD 3 0
      + 5 * (two_body_differential_system (1 * 3) (1 * 5) 0
        [0, 0, 0, 0, 0, 0, 2, 0, 0, 0, 0, 0]).getD 9 0 = 0 := by
  have h : dist3 (2 - 0) (0 - 0) (0 - 0) ≠ 0 := dist3_ne_zero (by norm_num)
  exact ⟨h, (two_body_momentum_conserved 1 3 5 0 0 0 0 0 0 0 2 0 0 0 0 0 h).1⟩

/-- Claim C8: with zero mean motion (`omega = 0`) and a single dominant mass
(`pi_2 = 0`, hence `mu_2 = 0`), the restricted three-body derivative reduces,
at every state with nonzero distance to the remaining primary, to pure
two-body Keplerian motion about that primary at the origin:
`[v, -mu_1 * pos / |pos| ^ 3]`. -/
theorem three_body_cr_reduces_to_kepler (mu_1 pi_1 r_12 t x y z v_x v_y v_z : ℝ)
    (_h : dist3 x y z ≠ 0) :
    three_body_cr_differential_system mu_1 0 pi_1 0 0 r_12 t
      [x, y, z, v_x, v_y, v_z] =
    [v_x, v_y, v_z,
     -(mu_1 * x) / dist3 x y z ^ 3,
     -(mu_1 * y) / dist3 x y z ^ 3,
     -(mu_1 * z) / dist3 x y z ^ 3] := by
  simp only [three_body_cr_differential_system, dist3, zero_mul, mul_zero, add_zero,
    zero_div, zero_add, sub_zero, ne_eq, List.cons.injEq]
  and_intros <;> first | rfl | ring

/-- Witness for C8 at the state `(x, y, z) = (0, 0, 2)` with velocity
`(1, 2, 3)`. -/
theorem three_body_cr_reduces_to_kepler_witness :
    dist3 0 0 2 ≠ 0 ∧
    three_body_cr_differential_system 7 0 (1 / 2) 0 0 5 0
      [0, 0, 2, 1, 2, 3] =
    [1, 2, 3,
     -(7 * 0) / dist3 0 0 2 ^ 3,
     -(7 * 0) / dist3 0 0 2 ^ 3,
     -(7 * 2) / dist3 0 0 2 ^ 3] := by
  have h : dist3 0 0 2 ≠ 0 := dist3_ne_zero (by norm_num)
  exact ⟨h, three_body_cr_reduces_to_kepler 7 (1 / 2) 5 0 0 0 2 1 2 3 h⟩

/-- Claim C9: when `mass_3 = 0`, for every 18-component state whose three
pairwise separations are nonzero, the first 12 components of the general
three-body derivative equal the two-body derivative applied to the sub-state
`[pos1, vel1, pos2, vel2]` with the same `mass_1`, `mass_2` and
`grav_constant`: a massless third body exerts no influence on bodies 1
and 2. -/
theorem three_body_massless_third_reduces (grav_constant mass_1 mass_2 t : ℝ)
    (x_1 y_1 z_1 vx_1 vy_1 vz_1 x_2 y_2 z_2 vx_2 vy_2 vz_2
     x_3 y_3 z_3 vx_3 vy_3 vz_3 : ℝ)
    (_h12 : dist3 (x_2 - x_1) (y_2 - y_1) (z_2 - z_1) ≠ 0)
    (_h13 : dist3 (x_3 - x_1) (y_3 - y_1) (z_3 - z_1) ≠ 0)
    (_h23 : dist3 (x_3 - x_2) (y_3 - y_2) (z_3 - z_2) ≠ 0) :
    (three_body_differential_system
        (grav_constant * mass_1) (grav_constant * mass_2) (grav_constant * 0) t
        [x_1, y_1, z_1, vx_1, vy_1, vz_1, x_2, y_2, z_2, vx_2, vy_2, vz_2,
         x_3, y_3, z_3, vx_3, vy_3, vz_3]).take 12 =
      two_body_differential_system (grav_constant * mass_1) (grav_constant * mass_2) t
        [x_1, y_1, z_1, vx_1, vy_1, vz_1, x_2, y_2, z_2, vx_2, vy_2, vz_2] := by
  simp [three_body_differential_system, two_body_differential_system]

/-- Witness for C9 at bodies placed at the origin, `(2, 0, 0)` and
`(0, 2, 0)`. -/
theorem three_body_massless_third_reduces_witness :
    dist3 (2 - 0) (0 - 0) (0 - 0) ≠ 0 ∧
    dist3 (0 - 0) (2 - 0) (0 - 0) ≠ 0 ∧
    dist3 (0 - 2) (2 - 0) (0 - 0) ≠ 0 ∧
    (three_body_differential_system (1 * 1) (1 * 1) (1 * 0) 0
        [0, 0, 0, 0, 0, 0, 2, 0, 0, 0, 0, 0, 0, 2, 0, 0, 0, 0]).take 12 =
      two_body_differential_system (1 * 1) (1 * 1) 0
        [0, 0, 0, 0, 0, 0, 2, 0, 0, 0, 0, 0] := by
  have h12 : dist3 (2 - 0) (0 - 0) (0 - 0) ≠ 0 := dist3_ne_zero (by norm_num)
  have h13 : dist3 (0 - 0) (2 - 0) (0 - 0) ≠ 0 := dist3_ne_zero (by norm_num)
  have h23 : dist3 (0 - 2) (2 - 0) (0 - 0) ≠ 0 := dist3_ne_zero (by norm_num)
  exact ⟨h12, h13, h23,
    three_body_massless_third_reduces 1 1 1 0
      0 0 0 0 0 0 2 0 0 0 0 0 0 2 0 0 0 0 h12 h13 h23⟩

/-- Claim C10: the restricted three-body derivative preserves the planar
subspace: at every state with `z = 0` and `v_z = 0` (and both primary
distances nonzero), the returned derivative has zero in both the z-rate and
the z-acceleration components. -/
theorem three_body_cr_planar_invariant (mu_1 mu_2 pi_1 pi_2 omega r_12 t x y v_x v_y : ℝ)
    (_h1 : dist3 (x + pi_2 * r_12) y 0 ≠ 0)
    (_h2 : dist3 (x - pi_1 * r_12) y 0 ≠ 0) :
    (three_body_cr_differential_system mu_1 mu_2 pi_1 pi_2 omega r_12 t
        [x, y, 0, v_x, v_y, 0]).getD 2 0 = 0 ∧
    (three_body_cr_differential_system mu_1 mu_2 pi_1 pi_2 omega r_12 t
        [x, y, 0, v_x, v_y, 0]).getD 5 0 = 0 := by
  constructor <;>
    simp [three_body_cr_differential_system, List.getD_cons_succ, List.getD_cons_zero]

/-- Witness for C10 at the planar state `(x, y) = (0, 1)` with
`pi_1 = pi_2 = 1/2`, `r_12 = 2`. -/
theorem three_body_cr_planar_invariant_witness :
    dist3 (0 + 1 / 2 * 2) 1 0 ≠ 0 ∧ dist3 (0 - 1 / 2 * 2) 1 0 ≠ 0 ∧
    (three_body_cr_differential_system 1 1 (1 / 2) (1 / 2) 1 2 0
        [0, 1, 0, 3, 4, 0]).getD 2 0 = 0 ∧
    (three_body_cr_differential_system 1 1 (1 / 2) (1 / 2) 1 2 0
        [0, 1, 0, 3, 4, 0]).getD 5 0 = 0 := by
  have h1 : dist3 (0 + 1 / 2 * 2) 1 0 ≠ 0 := dist3_ne_zero (by norm_num)
  have h2 : dist3 (0 - 1 / 2 * 2) 1 0 ≠ 0 := dist3_ne_zero (by norm_num)
  obtain ⟨ha, hb⟩ := three_body_cr_planar_invariant 1 1 (1 / 2) (1 / 2) 1 2 0 0 1 3 4 h1 h2
  exact ⟨h1, h2, ha, hb⟩

/-- Claim C1, counterexample: with `t_init = 0 > t_final = -1`, negative
masses, `tolerance = -1 < 0`, `beta = 2 ∉ (0, 1)` and (for the restricted
model) `r_12 = -1 < 0` — every validation condition of the claim violated at
once — none of the three propagators rejects the call: each proceeds straight
to integration. -/
theorem propagator_no_validation_cex :
    (two_body_propagator 0 (-1) (-1) (-1)
      [0, 0, 0, 0, 0, 0, 1, 0, 0, 0, 0, 0] 1 none (-1) 2).rejects = false ∧
    (three_body_cr_propagator 0 (-1) (-1) (-1) (-1)
      [0, 0, 0, 0, 0, 0] 1 none (-1) 2).rejects = false ∧
    (three_body_propagator 0 (-1) (-1) (-1) (-1)
      [0, 0, 0, 0, 0, 0, 1, 0, 0, 0, 0, 0, 0, 1, 0, 0, 0, 0] 1 none (-1) 2).rejects
      = false :=
  ⟨rfl, rfl, rfl⟩

/-- Claim C1, amended: the propagators perform no input validation at all.
For every argument list — whatever the state dimension, time interval,
tolerance, beta or masses — the call is never rejected: each propagator
computes its derived constants and unconditionally begins integration,
passing the initial conditions, `t_init`, `t_final`, `step_size`, `tolerance`
and `beta` to `rk_45` unchanged together with the derivative closure. -/
theorem propagator_no_validation :
    (∀ (t_init t_final mass_1 mass_2 : ℝ) (ic : List ℝ) (grav_constant : ℝ)
        (step_size : Option ℝ) (tolerance beta : ℝ),
      two_body_propagator t_init t_final mass_1 mass_2 ic grav_constant
          step_size tolerance beta =
        .integrate ⟨two_body_differential_system (grav_constant * mass_1)
            (grav_constant * mass_2),
          ic, t_init, t_final, step_size, tolerance, beta⟩) ∧
    (∀ (t_init t_final mass_1 mass_2 r_12 : ℝ) (ic : List ℝ) (grav_constant : ℝ)
        (step_size : Option ℝ) (tolerance beta : ℝ),
      three_body_cr_propagator t_init t_final mass_1 mass_2 r_12 ic grav_constant
          step_size tolerance beta =
        .integrate ⟨three_body_cr_differential_system (grav_constant * mass_1)
            (grav_constant * mass_2) (mass_1 / (mass_1 + mass_2))
            (mass_2 / (mass_1 + mass_2))
            (Real.sqrt (grav_constant * (mass_1 + mass_2) / r_12 ^ 3)) r_12,
          ic, t_init, t_final, step_size, tolerance, beta⟩) ∧
    (∀ (t_init t_final mass_1 mass_2 mass_3 : ℝ) (ic : List ℝ) (grav_constant : ℝ)
        (step_size : Option ℝ) (tolerance beta : ℝ),
      three_body_propagator t_init t_final mass_1 mass_2 mass_3 ic grav_constant
          step_size tolerance beta =
        .integrate ⟨three_body_differential_system (grav_constant * mass_1)
            (grav_constant * mass_2) (grav_constant * mass_3),
          ic, t_init, t_final, step_size, tolerance, beta⟩) := by
  refine ⟨?_, ?_, ?_⟩ <;> intros <;> rfl
